import Mathlib

/-!
Verification of the orbit-camera controller and startup-option parsing of
`bevy_interactive_benchmark` (src/orbit_controls.rs and src/main.rs).

The `f32` arithmetic of the source is modelled over `ℝ`; `powf` is real
exponentiation (`Real.rpow`), and the quaternion operations supplied by the
host math library (`Quat::from_axis_angle`, quaternion product, rotation of a
vector by `q * v * q.conjugate()`) are spelled out component-wise exactly as
that library computes them.
-/

namespace BevyOrbit

/-- Modelled from `str::parse::<i32>` in Rust (used at src/main.rs line 119):
an optional `+`/`-` sign followed by at least one decimal digit, rejecting
values outside the `i32` range. -/
def parse_i32 (s : String) : Option Int :=
  let signDigits : Int × List Char :=
    match s.toList with
    | '+' :: rest => (1, rest)
    | '-' :: rest => (-1, rest)
    | l => (1, l)
  if signDigits.2 = [] then none
  else if signDigits.2.all Char.isDigit then
    let n : Int :=
      signDigits.1 * (signDigits.2.foldl (fun acc c => acc * 10 + (c.toNat - '0'.toNat)) 0 : Nat)
    if -(2 ^ 31) ≤ n ∧ n < 2 ^ 31 then some n else none
  else none

/-- Structure `StartupOptions` from src/main.rs. -/
structure StartupOptions where
  box_count : Int
  deriving DecidableEq

/-- Function `parse_command_line_options` from src/main.rs lines 113-123.  `args[0]` is
the program name; failure of `expect` (process termination with a message) is
modelled as `Except.error`. -/
def parse_command_line_options (args : List String) : Except String StartupOptions :=
  match args with
  | _prog :: first :: _rest =>
    match parse_i32 first with
    | some n => Except.ok ⟨n⟩
    | none => Except.error "Please specify the number of boxes as an integer."
  | _ => Except.ok ⟨6⟩

noncomputable section

/-- Host math library 2-vector (`Vec2`), real-valued. -/
structure Vec2 where
  x : ℝ
  y : ℝ

/-- Host math library 3-vector (`Vec3`), real-valued. -/
@[ext]
structure Vec3 where
  x : ℝ
  y : ℝ
  z : ℝ

instance : Add Vec3 := ⟨fun a b => ⟨a.x + b.x, a.y + b.y, a.z + b.z⟩⟩

instance : Sub Vec3 := ⟨fun a b => ⟨a.x - b.x, a.y - b.y, a.z - b.z⟩⟩

instance : SMul ℝ Vec3 := ⟨fun r v => ⟨r * v.x, r * v.y, r * v.z⟩⟩

def Vec3.zero : Vec3 := ⟨0, 0, 0⟩

def Vec3.unit_x : Vec3 := ⟨1, 0, 0⟩

def Vec3.unit_y : Vec3 := ⟨0, 1, 0⟩

def Vec3.neg (v : Vec3) : Vec3 := ⟨-v.x, -v.y, -v.z⟩

/-- Squared euclidean length (`Vec3::length_squared`). -/
def Vec3.normSq (v : Vec3) : ℝ := v.x ^ 2 + v.y ^ 2 + v.z ^ 2

/-- Euclidean length (`Vec3::length`). -/
def Vec3.length (v : Vec3) : ℝ := Real.sqrt v.normSq

/-- Normalisation `Vec3::normalize`: the vector scaled by the reciprocal of its length
(undefined — division by zero — on the zero vector; here real division by
zero yields the junk value `0`, and `Vec3.normalizeChecked` below tracks
definedness explicitly). -/
def Vec3.normalize (v : Vec3) : Vec3 := (1 / v.length) • v

/-- Normalisation `Vec3::normalize` with its definedness side-condition made explicit:
`none` exactly when the normalisation would divide by zero. -/
def Vec3.normalizeChecked (v : Vec3) : Option Vec3 :=
  if v.length = 0 then none else some v.normalize

/-- Host math library quaternion (`Quat`), stored `(x, y, z, w)` with `w` the
real part. -/
structure Quat where
  x : ℝ
  y : ℝ
  z : ℝ
  w : ℝ

/-- The Hamilton product, component-wise as in the host math library. -/
def Quat.mul (a b : Quat) : Quat :=
  ⟨a.w * b.x + a.x * b.w + a.y * b.z - a.z * b.y,
   a.w * b.y - a.x * b.z + a.y * b.w + a.z * b.x,
   a.w * b.z + a.x * b.y - a.y * b.x + a.z * b.w,
   a.w * b.w - a.x * b.x - a.y * b.y - a.z * b.z⟩

/-- Conjugation `Quat::conjugate`. -/
def Quat.conjugate (q : Quat) : Quat := ⟨-q.x, -q.y, -q.z, q.w⟩

/-- Squared quaternion norm (`Quat::length_squared`). -/
def Quat.normSq (q : Quat) : ℝ := q.x ^ 2 + q.y ^ 2 + q.z ^ 2 + q.w ^ 2

/-- Constructor `Quat::from_axis_angle`: `(axis * sin(angle/2), cos(angle/2))`. -/
def Quat.from_axis_angle (axis : Vec3) (angle : ℝ) : Quat :=
  ⟨axis.x * Real.sin (angle / 2), axis.y * Real.sin (angle / 2),
   axis.z * Real.sin (angle / 2), Real.cos (angle / 2)⟩

/-- Rotation of a vector by a quaternion (`Quat * Vec3` in the source, line
130 of src/orbit_controls.rs): the vector part of `q * (v, 0) * q.conjugate()`. -/
def Quat.mul_vec3 (q : Quat) (v : Vec3) : Vec3 :=
  let r := (q.mul ⟨v.x, v.y, v.z, 0⟩).mul q.conjugate
  ⟨r.x, r.y, r.z⟩

/-- Constant from src/orbit_controls.rs line 9 (its source name is upper-case). -/
def line_to_pixel_ratio : ℝ := 0.1

/-- The `Clamp` trait implementation for `f32` from src/orbit_controls.rs
lines 18-33: take the max with the lower bound when present, then the min
with the upper bound when present. -/
def Clamp.clamp (self : ℝ) (lower upper : Option ℝ) : ℝ :=
  let below :=
    match lower with
    | none => self
    | some l => max self l
  match upper with
  | none => below
  | some u => min below u

/-- Component `OrbitCamera` from src/orbit_controls.rs lines 41-53. -/
structure OrbitCamera where
  x : ℝ
  y : ℝ
  distance : ℝ
  center : Vec3
  rotate_sensitivity : ℝ
  zoom_sensitivity : ℝ
  pan_sensitivity : ℝ
  max_zoom_distance : ℝ
  min_zoom_distance : ℝ
  max_polar_angle : ℝ
  min_polar_angle : ℝ

/-- Constructor `OrbitCamera::default` (src/orbit_controls.rs lines 55-71). -/
def OrbitCamera.default : OrbitCamera :=
  { x := 0, y := 0, distance := 5, center := Vec3.zero,
    rotate_sensitivity := 1, zoom_sensitivity := 0.8, pan_sensitivity := 1,
    max_zoom_distance := -1, min_zoom_distance := -1,
    max_polar_angle := 3.13, min_polar_angle := 0.01 }

/-- Constructor `OrbitCamera::new` (src/orbit_controls.rs lines 74-89). -/
def OrbitCamera.new (x y dist : ℝ) (center : Vec3) : OrbitCamera :=
  { x := x, y := y, distance := dist, center := center,
    rotate_sensitivity := 1, zoom_sensitivity := 0.8, pan_sensitivity := 1,
    max_zoom_distance := 120, min_zoom_distance := 8,
    max_polar_angle := 3.13, min_polar_angle := 0.01 }

/-- The per-camera mutable state touched by the systems: the `OrbitCamera`
component and the `Transform`'s translation.  (`Transform::look_at` only
changes the transform's rotation, which none of the systems read back, so it
is not tracked.) -/
structure CamState where
  camera : OrbitCamera
  translation : Vec3

/-- Body of `OrbitCameraPlugin::mouse_motion_system` (src/orbit_controls.rs
lines 93-147) for one camera, given the accumulated pointer delta, the frame's
`delta_seconds` and the current button/key state. -/
def mouse_motion_update (dt : ℝ) (delta : Vec2) (shift lmb rmb : Bool)
    (s : CamState) : CamState :=
  if shift then
    if lmb then
      let t : Vec3 := ⟨delta.x * s.camera.pan_sensitivity * dt,
                       delta.y * s.camera.pan_sensitivity * dt, 0⟩
      ⟨{ s.camera with center := s.camera.center + t }, s.translation + t⟩
    else s
  else if lmb then
    let x' := s.camera.x - delta.x * s.camera.rotate_sensitivity * dt
    let y' := Clamp.clamp (s.camera.y - delta.y * s.camera.rotate_sensitivity * dt)
      (some s.camera.min_polar_angle) (some s.camera.max_polar_angle)
    let rot := (Quat.from_axis_angle Vec3.unit_y x').mul
      (Quat.from_axis_angle Vec3.unit_x.neg y')
    ⟨{ s.camera with x := x', y := y' },
     s.camera.distance • rot.mul_vec3 ⟨0, 1, 0⟩ + s.camera.center⟩
  else if rmb then
    let t : Vec3 := ⟨delta.x * s.camera.pan_sensitivity * dt,
                     delta.y * s.camera.pan_sensitivity * dt, 0⟩
    ⟨{ s.camera with center := s.camera.center + t }, s.translation + t⟩
  else s

/-- Function `OrbitCameraPlugin::set_zoom_level` (src/orbit_controls.rs lines 165-179)
for one camera. -/
def set_zoom_level (zoom : ℝ) (s : CamState) : CamState :=
  let d1 := s.camera.distance * s.camera.zoom_sensitivity ^ zoom
  let d2 := Clamp.clamp d1
    (if s.camera.min_zoom_distance ≥ 0 then some s.camera.min_zoom_distance else none)
    (if s.camera.max_zoom_distance ≥ 0 then some s.camera.max_zoom_distance else none)
  ⟨{ s.camera with distance := d2 },
   d2 • (s.translation - s.camera.center).normalize + s.camera.center⟩

/-- Scroll unit type from the host engine. -/
inductive MouseScrollUnit where
  | Line
  | Pixel

/-- A `MouseWheel` event (only the fields the source reads). -/
structure MouseWheel where
  unit : MouseScrollUnit
  y : ℝ

/-- The scroll accumulation of `OrbitCameraPlugin::mouse_zoom_system`
(src/orbit_controls.rs lines 154-161): one per "line" unit,
`line_to_pixel_ratio` per "pixel" unit. -/
def scroll_total (events : List MouseWheel) : ℝ :=
  events.foldl
    (fun total e =>
      total + e.y * (match e.unit with
        | MouseScrollUnit.Line => 1
        | MouseScrollUnit.Pixel => line_to_pixel_ratio)) 0

/-- System `OrbitCameraPlugin::mouse_zoom_system` (src/orbit_controls.rs lines
149-163): accumulate the wheel events and apply `set_zoom_level`
(unconditionally — also when no event arrived). -/
def mouse_zoom_update (events : List MouseWheel) (s : CamState) : CamState :=
  set_zoom_level (scroll_total events) s

/-- System `OrbitCameraPlugin::keyboard_controls_system` (src/orbit_controls.rs lines
181-194): `Up` zooms by `+0.2`, otherwise `Down` zooms by `-0.2`. -/
def keyboard_controls_update (up down : Bool) (s : CamState) : CamState :=
  if up then set_zoom_level 0.2 s
  else if down then set_zoom_level (-0.2) s
  else s

/-- One frame of the plugin, in the registration order of
`OrbitCameraPlugin::build` (src/orbit_controls.rs lines 196-203):
mouse motion, then mouse zoom, then keyboard. -/
def frame (dt : ℝ) (delta : Vec2) (shift lmb rmb : Bool)
    (scroll : List MouseWheel) (up down : Bool) (s : CamState) : CamState :=
  keyboard_controls_update up down
    (mouse_zoom_update scroll (mouse_motion_update dt delta shift lmb rmb s))

/-- Variant of `set_zoom_level` with the definedness of `normalize` tracked: `none`
exactly when `translation - center` cannot be normalised. -/
def set_zoom_level_checked (zoom : ℝ) (s : CamState) : Option CamState :=
  if (s.translation - s.camera.center).length = 0 then none
  else some (set_zoom_level zoom s)

/-- One invocation of one of the three per-frame systems, with its inputs. -/
inductive FrameInput where
  | motion (dt : ℝ) (delta : Vec2) (shift lmb rmb : Bool)
  | wheel (events : List MouseWheel)
  | key (up down : Bool)

/-- One system invocation, with zoom definedness tracked. -/
def step (s : CamState) (i : FrameInput) : Option CamState :=
  match i with
  | FrameInput.motion dt delta shift lmb rmb =>
    some (mouse_motion_update dt delta shift lmb rmb s)
  | FrameInput.wheel events => set_zoom_level_checked (scroll_total events) s
  | FrameInput.key up down =>
    if up then set_zoom_level_checked 0.2 s
    else if down then set_zoom_level_checked (-0.2) s
    else some s

/-- Run a sequence of system invocations. -/
def run (s : CamState) (l : List FrameInput) : Option CamState :=
  l.foldl (fun acc i => acc.bind (fun t => step t i)) (some s)

/-- The camera state spawned by `init` in src/main.rs lines 27-32:
`OrbitCamera::new(0.0, 0.0, 12.5, Vec3::ZERO)` on a transform translated to
`(0, 0, 12.5)`. -/
def initState : CamState :=
  ⟨OrbitCamera.new 0 0 12.5 Vec3.zero, ⟨0, 0, 12.5⟩⟩

/-- The invariant maintained by every system on the camera spawned by
src/main.rs: the constructor's zoom bounds, a positive distance and a camera
strictly away from its center (so the zoom re-projection never normalises the
zero vector). -/
def goodState (s : CamState) : Prop :=
  s.camera.min_zoom_distance = 8 ∧ s.camera.max_zoom_distance = 120 ∧
    0 < s.camera.distance ∧ 0 < (s.translation - s.camera.center).normSq

end

/-! ### Component lemmas for the vector operations -/

@[simp] theorem Vec3.add_x (a b : Vec3) : (a + b).x = a.x + b.x := rfl

@[simp] theorem Vec3.add_y (a b : Vec3) : (a + b).y = a.y + b.y := rfl

@[simp] theorem Vec3.add_z (a b : Vec3) : (a + b).z = a.z + b.z := rfl

@[simp] theorem Vec3.sub_x (a b : Vec3) : (a - b).x = a.x - b.x := rfl

@[simp] theorem Vec3.sub_y (a b : Vec3) : (a - b).y = a.y - b.y := rfl

@[simp] theorem Vec3.sub_z (a b : Vec3) : (a - b).z = a.z - b.z := rfl

@[simp] theorem Vec3.smul_x (r : ℝ) (v : Vec3) : (r • v).x = r * v.x := rfl

@[simp] theorem Vec3.smul_y (r : ℝ) (v : Vec3) : (r • v).y = r * v.y := rfl

@[simp] theorem Vec3.smul_z (r : ℝ) (v : Vec3) : (r • v).z = r * v.z := rfl

theorem Vec3.add_sub_cancel_right (a c : Vec3) : a + c - c = a := by
  ext <;> simp

/-! ### Norm lemmas -/

theorem Vec3.normSq_nonneg (v : Vec3) : 0 ≤ v.normSq := by
  simp only [Vec3.normSq]; positivity

theorem Vec3.length_eq_zero_iff (v : Vec3) : v.length = 0 ↔ v.normSq = 0 :=
  Real.sqrt_eq_zero (Vec3.normSq_nonneg v)

theorem Vec3.normSq_smul (r : ℝ) (v : Vec3) : (r • v).normSq = r ^ 2 * v.normSq := by
  simp only [Vec3.normSq, Vec3.smul_x, Vec3.smul_y, Vec3.smul_z]; ring

theorem Vec3.normSq_normalize (v : Vec3) (h : v.normSq ≠ 0) :
    v.normalize.normSq = 1 := by
  rw [Vec3.normalize, Vec3.normSq_smul, Vec3.length, one_div, inv_pow,
    Real.sq_sqrt (Vec3.normSq_nonneg v)]
  exact inv_mul_cancel₀ h

/-! ### Quaternion algebra -/

theorem Quat.normSq_mul (a b : Quat) : (a.mul b).normSq = a.normSq * b.normSq := by
  simp only [Quat.mul, Quat.normSq]; ring

theorem Quat.normSq_conjugate (q : Quat) : q.conjugate.normSq = q.normSq := by
  simp only [Quat.conjugate, Quat.normSq]; ring

theorem Quat.sandwich_w (q : Quat) (v : Vec3) :
    ((q.mul ⟨v.x, v.y, v.z, 0⟩).mul q.conjugate).w = 0 := by
  simp only [Quat.mul, Quat.conjugate]; ring

theorem Quat.mul_vec3_normSq (q : Quat) (v : Vec3) :
    (q.mul_vec3 v).normSq = q.normSq ^ 2 * v.normSq := by
  have key : ∀ r : Quat, r.w = 0 → (Vec3.mk r.x r.y r.z).normSq = r.normSq := by
    intro r hr
    simp [Vec3.normSq, Quat.normSq, hr]
  simp only [Quat.mul_vec3]
  rw [key _ (Quat.sandwich_w q v), Quat.normSq_mul, Quat.normSq_mul,
    Quat.normSq_conjugate]
  simp only [Quat.normSq, Vec3.normSq]
  ring

theorem Quat.from_axis_angle_normSq (axis : Vec3) (θ : ℝ) :
    (Quat.from_axis_angle axis θ).normSq
      = axis.normSq * Real.sin (θ / 2) ^ 2 + Real.cos (θ / 2) ^ 2 := by
  simp only [Quat.from_axis_angle, Quat.normSq, Vec3.normSq]; ring

/-- The rotation quaternion built in the rotate branch (yaw about the up axis
composed with pitch about the negated right axis) is a unit quaternion. -/
theorem rot_quat_normSq (x y : ℝ) :
    ((Quat.from_axis_angle Vec3.unit_y x).mul
      (Quat.from_axis_angle Vec3.unit_x.neg y)).normSq = 1 := by
  rw [Quat.normSq_mul, Quat.from_axis_angle_normSq, Quat.from_axis_angle_normSq]
  simp only [Vec3.unit_y, Vec3.unit_x, Vec3.neg, Vec3.normSq]
  norm_num

/-! ### Clamp lemmas -/

theorem Clamp.clamp_some_some (a l u : ℝ) :
    Clamp.clamp a (some l) (some u) = min (max a l) u := rfl

theorem Clamp.clamp_none_none (a : ℝ) : Clamp.clamp a none none = a := rfl

theorem Clamp.clamp_some_none (a l : ℝ) : Clamp.clamp a (some l) none = max a l := rfl

theorem Clamp.clamp_none_some (a u : ℝ) : Clamp.clamp a none (some u) = min a u := rfl

theorem Clamp.lower_le_clamp (a l u : ℝ) (h : l ≤ u) :
    l ≤ Clamp.clamp a (some l) (some u) := by
  rw [Clamp.clamp_some_some]
  exact le_min (le_max_right a l) h

theorem Clamp.clamp_le_upper (a l u : ℝ) :
    Clamp.clamp a (some l) (some u) ≤ u := by
  rw [Clamp.clamp_some_some]
  exact min_le_right _ u

theorem Clamp.clamp_eq_self (a l u : ℝ) (h1 : l ≤ a) (h2 : a ≤ u) :
    Clamp.clamp a (some l) (some u) = a := by
  rw [Clamp.clamp_some_some, max_eq_left h1, min_eq_left h2]

/-! ### Branch characterizations of the systems -/

theorem mouse_motion_update_rotate (dt : ℝ) (delta : Vec2) (rmb : Bool) (s : CamState) :
    mouse_motion_update dt delta false true rmb s =
      ⟨{ s.camera with
          x := s.camera.x - delta.x * s.camera.rotate_sensitivity * dt,
          y := Clamp.clamp (s.camera.y - delta.y * s.camera.rotate_sensitivity * dt)
            (some s.camera.min_polar_angle) (some s.camera.max_polar_angle) },
        s.camera.distance •
          ((Quat.from_axis_angle Vec3.unit_y
              (s.camera.x - delta.x * s.camera.rotate_sensitivity * dt)).mul
            (Quat.from_axis_angle Vec3.unit_x.neg
              (Clamp.clamp (s.camera.y - delta.y * s.camera.rotate_sensitivity * dt)
                (some s.camera.min_polar_angle) (some s.camera.max_polar_angle)))).mul_vec3
            ⟨0, 1, 0⟩ + s.camera.center⟩ := rfl

theorem mouse_motion_update_pan_shift (dt : ℝ) (delta : Vec2) (rmb : Bool) (s : CamState) :
    mouse_motion_update dt delta true true rmb s =
      ⟨{ s.camera with
          center := s.camera.center + ⟨delta.x * s.camera.pan_sensitivity * dt,
            delta.y * s.camera.pan_sensitivity * dt, 0⟩ },
        s.translation + ⟨delta.x * s.camera.pan_sensitivity * dt,
          delta.y * s.camera.pan_sensitivity * dt, 0⟩⟩ := rfl

theorem mouse_motion_update_pan_rmb (dt : ℝ) (delta : Vec2) (s : CamState) :
    mouse_motion_update dt delta false false true s =
      ⟨{ s.camera with
          center := s.camera.center + ⟨delta.x * s.camera.pan_sensitivity * dt,
            delta.y * s.camera.pan_sensitivity * dt, 0⟩ },
        s.translation + ⟨delta.x * s.camera.pan_sensitivity * dt,
          delta.y * s.camera.pan_sensitivity * dt, 0⟩⟩ := rfl

theorem set_zoom_level_camera (zoom : ℝ) (s : CamState) :
    (set_zoom_level zoom s).camera =
      { s.camera with
        distance := Clamp.clamp (s.camera.distance * s.camera.zoom_sensitivity ^ zoom)
          (if s.camera.min_zoom_distance ≥ 0 then some s.camera.min_zoom_distance else none)
          (if s.camera.max_zoom_distance ≥ 0 then some s.camera.max_zoom_distance else none) } := rfl

theorem set_zoom_level_translation (zoom : ℝ) (s : CamState) :
    (set_zoom_level zoom s).translation =
      (set_zoom_level zoom s).camera.distance • (s.translation - s.camera.center).normalize
        + s.camera.center := rfl

/-- The squared length of the rotate-branch offset from the center is the
squared distance, for any pair of angles. -/
theorem rotate_offset_normSq (x y d : ℝ) :
    (d • ((Quat.from_axis_angle Vec3.unit_y x).mul
        (Quat.from_axis_angle Vec3.unit_x.neg y)).mul_vec3 ⟨0, 1, 0⟩).normSq = d ^ 2 := by
  rw [Vec3.normSq_smul, Quat.mul_vec3_normSq, rot_quat_normSq]
  simp [Vec3.normSq]

/-- The zoom clamp is the identity when the raw value already satisfies every
bound that is active (non-negative). -/
theorem clamp_guard_eq_self (a mn mx : ℝ)
    (h1 : 0 ≤ mn → mn ≤ a) (h2 : 0 ≤ mx → a ≤ mx) :
    Clamp.clamp a (if mn ≥ 0 then some mn else none)
      (if mx ≥ 0 then some mx else none) = a := by
  by_cases c1 : mn ≥ 0
  · by_cases c2 : mx ≥ 0
    · rw [if_pos c1, if_pos c2]
      exact Clamp.clamp_eq_self _ _ _ (h1 c1) (h2 c2)
    · rw [if_pos c1, if_neg c2, Clamp.clamp_some_none, max_eq_left (h1 c1)]
  · by_cases c2 : mx ≥ 0
    · rw [if_neg c1, if_pos c2, Clamp.clamp_none_some, min_eq_left (h2 c2)]
    · rw [if_neg c1, if_neg c2, Clamp.clamp_none_none]

/-- Shifting the accumulator out of the scroll fold. -/
theorem foldl_add_shift (g : MouseWheel → ℝ) (l : List MouseWheel) :
    ∀ a : ℝ, l.foldl (fun total e => total + g e) a
      = a + l.foldl (fun total e => total + g e) 0 := by
  induction l with
  | nil => intro a; simp
  | cons e rest ih =>
    intro a
    simp only [List.foldl_cons]
    rw [ih (a + g e), ih (0 + g e)]
    ring

/-- Each scroll event contributes `y` weighted by its unit: one per "line",
`line_to_pixel_ratio` per "pixel". -/
theorem scroll_total_cons (e : MouseWheel) (rest : List MouseWheel) :
    scroll_total (e :: rest)
      = e.y * (match e.unit with
          | MouseScrollUnit.Line => 1
          | MouseScrollUnit.Pixel => line_to_pixel_ratio) + scroll_total rest := by
  show List.foldl _ (0 + e.y * _) rest = _
  rw [foldl_add_shift (fun e => e.y * (match e.unit with
    | MouseScrollUnit.Line => 1
    | MouseScrollUnit.Pixel => line_to_pixel_ratio)) rest]
  simp [scroll_total]

/-- Applying `set_zoom_level 0` leaves the camera fields unchanged when the stored
distance already satisfies the active bounds (`powf 0 = 1`, and the clamp is
then a no-op). -/
theorem set_zoom_level_zero_identity (s : CamState)
    (hmin : 0 ≤ s.camera.min_zoom_distance → s.camera.min_zoom_distance ≤ s.camera.distance)
    (hmax : 0 ≤ s.camera.max_zoom_distance → s.camera.distance ≤ s.camera.max_zoom_distance) :
    (set_zoom_level 0 s).camera.x = s.camera.x ∧
      (set_zoom_level 0 s).camera.y = s.camera.y ∧
      (set_zoom_level 0 s).camera.center = s.camera.center ∧
      (set_zoom_level 0 s).camera.distance = s.camera.distance := by
  refine ⟨rfl, rfl, rfl, ?_⟩
  rw [set_zoom_level_camera]
  dsimp only
  rw [Real.rpow_zero, mul_one]
  exact clamp_guard_eq_self _ _ _ hmin hmax

/-! ### Claims -/

/-- C1: for every rotate-mode update (primary mouse button held, no modifier),
whatever the magnitude or sign of the accumulated pointer delta, the resulting
polar angle `y` lies within `[min_polar_angle, max_polar_angle]` (the bounds
being in order). -/
theorem c1_rotate_polar_angle_in_bounds (dt : ℝ) (delta : Vec2) (rmb : Bool)
    (s : CamState)
    (h : s.camera.min_polar_angle ≤ s.camera.max_polar_angle) :
    s.camera.min_polar_angle ≤ (mouse_motion_update dt delta false true rmb s).camera.y ∧
      (mouse_motion_update dt delta false true rmb s).camera.y ≤ s.camera.max_polar_angle := by
  rw [mouse_motion_update_rotate]
  exact ⟨Clamp.lower_le_clamp _ _ _ h, Clamp.clamp_le_upper _ _ _⟩

/-- Witness for C1 at the camera spawned by src/main.rs and a large downward
drag. -/
theorem c1_rotate_polar_angle_in_bounds_witness :
    (OrbitCamera.new 0 0 12.5 Vec3.zero).min_polar_angle ≤
        (OrbitCamera.new 0 0 12.5 Vec3.zero).max_polar_angle ∧
      ((OrbitCamera.new 0 0 12.5 Vec3.zero).min_polar_angle ≤
          (mouse_motion_update 1 ⟨0, 100⟩ false true false
            ⟨OrbitCamera.new 0 0 12.5 Vec3.zero, ⟨0, 0, 12.5⟩⟩).camera.y ∧
        (mouse_motion_update 1 ⟨0, 100⟩ false true false
            ⟨OrbitCamera.new 0 0 12.5 Vec3.zero, ⟨0, 0, 12.5⟩⟩).camera.y ≤
          (OrbitCamera.new 0 0 12.5 Vec3.zero).max_polar_angle) :=
  ⟨by norm_num [OrbitCamera.new],
    c1_rotate_polar_angle_in_bounds 1 ⟨0, 100⟩ false
      ⟨OrbitCamera.new 0 0 12.5 Vec3.zero, ⟨0, 0, 12.5⟩⟩ (by norm_num [OrbitCamera.new])⟩

/-- C3: a rotate-mode update decreases `x` by `delta.x * rotate_sensitivity * dt`
and decreases `y` by `delta.y * rotate_sensitivity * dt` before clamping it,
leaves the distance unchanged, and recomputes the position as the yaw/pitch
rotation of `(0,1,0)` scaled by the distance plus the center; in particular,
from `x = 0`, `y = 0`, `distance = 12.5`, `center = origin`, one primary-button
drag frame with `delta = (10, 0)`, `dt = 1`, `rotate_sensitivity = 1` yields
`x = -10` and a position still at distance `12.5` from the center. -/
theorem c3_rotate_update_formula :
    (∀ (dt : ℝ) (delta : Vec2) (rmb : Bool) (s : CamState),
      (mouse_motion_update dt delta false true rmb s).camera.x
          = s.camera.x - delta.x * s.camera.rotate_sensitivity * dt ∧
        (mouse_motion_update dt delta false true rmb s).camera.y
          = Clamp.clamp (s.camera.y - delta.y * s.camera.rotate_sensitivity * dt)
              (some s.camera.min_polar_angle) (some s.camera.max_polar_angle) ∧
        (mouse_motion_update dt delta false true rmb s).camera.distance
          = s.camera.distance ∧
        (mouse_motion_update dt delta false true rmb s).translation
          = s.camera.distance •
              ((Quat.from_axis_angle Vec3.unit_y
                  ((mouse_motion_update dt delta false true rmb s).camera.x)).mul
                (Quat.from_axis_angle Vec3.unit_x.neg
                  ((mouse_motion_update dt delta false true rmb s).camera.y))).mul_vec3
                ⟨0, 1, 0⟩ + s.camera.center) ∧
      (mouse_motion_update 1 ⟨10, 0⟩ false true false initState).camera.x = -10 ∧
      ((mouse_motion_update 1 ⟨10, 0⟩ false true false initState).translation
          - initState.camera.center).length = 12.5 := by
  refine ⟨fun dt delta rmb s => ⟨rfl, rfl, rfl, rfl⟩, ?_, ?_⟩
  · rw [mouse_motion_update_rotate]
    show (0 : ℝ) - 10 * 1 * 1 = -10
    norm_num
  · rw [mouse_motion_update_rotate]
    show ((12.5 : ℝ) • _ + Vec3.zero - Vec3.zero).length = 12.5
    have hv : ∀ w : Vec3, w + Vec3.zero - Vec3.zero = w := by
      intro w; ext <;> simp [Vec3.zero]
    rw [hv, Vec3.length, rotate_offset_normSq]
    rw [show ((12.5 : ℝ) ^ 2) = 156.25 by norm_num]
    rw [show (156.25 : ℝ) = 12.5 ^ 2 by norm_num, Real.sqrt_sq (by norm_num)]

/-- C5: in pan mode (modifier key plus primary button, or secondary button
alone), the translation and the orbit center both shift by the vector
`(delta.x * pan_sensitivity * dt, delta.y * pan_sensitivity * dt, 0)`, the
angles `x`, `y` and the distance are not modified, and the offset of the
camera from the center is preserved. -/
theorem c5_pan_shifts_center_and_translation (dt : ℝ) (delta : Vec2) (s : CamState) :
    (∀ rmb : Bool,
      (mouse_motion_update dt delta true true rmb s).camera.center
          = s.camera.center + ⟨delta.x * s.camera.pan_sensitivity * dt,
              delta.y * s.camera.pan_sensitivity * dt, 0⟩ ∧
        (mouse_motion_update dt delta true true rmb s).translation
          = s.translation + ⟨delta.x * s.camera.pan_sensitivity * dt,
              delta.y * s.camera.pan_sensitivity * dt, 0⟩ ∧
        (mouse_motion_update dt delta true true rmb s).camera.x = s.camera.x ∧
        (mouse_motion_update dt delta true true rmb s).camera.y = s.camera.y ∧
        (mouse_motion_update dt delta true true rmb s).camera.distance = s.camera.distance ∧
        (mouse_motion_update dt delta true true rmb s).translation
            - (mouse_motion_update dt delta true true rmb s).camera.center
          = s.translation - s.camera.center) ∧
      ((mouse_motion_update dt delta false false true s).camera.center
          = s.camera.center + ⟨delta.x * s.camera.pan_sensitivity * dt,
              delta.y * s.camera.pan_sensitivity * dt, 0⟩ ∧
        (mouse_motion_update dt delta false false true s).translation
          = s.translation + ⟨delta.x * s.camera.pan_sensitivity * dt,
              delta.y * s.camera.pan_sensitivity * dt, 0⟩ ∧
        (mouse_motion_update dt delta false false true s).camera.x = s.camera.x ∧
        (mouse_motion_update dt delta false false true s).camera.y = s.camera.y ∧
        (mouse_motion_update dt delta false false true s).camera.distance = s.camera.distance ∧
        (mouse_motion_update dt delta false false true s).translation
            - (mouse_motion_update dt delta false false true s).camera.center
          = s.translation - s.camera.center) := by
  constructor
  · intro rmb
    rw [mouse_motion_update_pan_shift]
    refine ⟨rfl, rfl, rfl, rfl, rfl, ?_⟩
    ext <;> simp
  · rw [mouse_motion_update_pan_rmb]
    refine ⟨rfl, rfl, rfl, rfl, rfl, ?_⟩
    ext <;> simp

/-- C7: rotating by `+Δ` and then by `-Δ` (same sensitivity and `dt`, neither
update triggering the polar-angle clamp) returns the angles `x` and `y` to
their original values. -/
theorem c7_rotate_round_trip (dt : ℝ) (delta : Vec2) (rmb rmb' : Bool) (s : CamState)
    (h1 : s.camera.min_polar_angle ≤ s.camera.y - delta.y * s.camera.rotate_sensitivity * dt)
    (h2 : s.camera.y - delta.y * s.camera.rotate_sensitivity * dt ≤ s.camera.max_polar_angle)
    (h3 : s.camera.min_polar_angle ≤ s.camera.y)
    (h4 : s.camera.y ≤ s.camera.max_polar_angle) :
    (mouse_motion_update dt ⟨-delta.x, -delta.y⟩ false true rmb'
        (mouse_motion_update dt delta false true rmb s)).camera.x = s.camera.x ∧
      (mouse_motion_update dt ⟨-delta.x, -delta.y⟩ false true rmb'
        (mouse_motion_update dt delta false true rmb s)).camera.y = s.camera.y := by
  rw [mouse_motion_update_rotate, mouse_motion_update_rotate]
  have e1 : Clamp.clamp (s.camera.y - delta.y * s.camera.rotate_sensitivity * dt)
      (some s.camera.min_polar_angle) (some s.camera.max_polar_angle)
      = s.camera.y - delta.y * s.camera.rotate_sensitivity * dt :=
    Clamp.clamp_eq_self _ _ _ h1 h2
  constructor
  · show s.camera.x - delta.x * s.camera.rotate_sensitivity * dt
        - (-delta.x) * s.camera.rotate_sensitivity * dt = s.camera.x
    ring
  · show Clamp.clamp
        (Clamp.clamp (s.camera.y - delta.y * s.camera.rotate_sensitivity * dt)
            (some s.camera.min_polar_angle) (some s.camera.max_polar_angle)
          - (-delta.y) * s.camera.rotate_sensitivity * dt)
        (some s.camera.min_polar_angle) (some s.camera.max_polar_angle) = s.camera.y
    rw [e1, show s.camera.y - delta.y * s.camera.rotate_sensitivity * dt
        - (-delta.y) * s.camera.rotate_sensitivity * dt = s.camera.y by ring]
    exact Clamp.clamp_eq_self _ _ _ h3 h4

/-- C2: a zoom update keeps the distance within
`[min_zoom_distance, max_zoom_distance]` whenever both bounds are
non-negative (and in order); a negative `min_zoom_distance` disables the
lower clamp and a negative `max_zoom_distance` disables the upper clamp, so
the distance is unbounded on that side. -/
theorem c2_zoom_distance_bounds (zoom : ℝ) (s : CamState) :
    (0 ≤ s.camera.min_zoom_distance → 0 ≤ s.camera.max_zoom_distance →
        s.camera.min_zoom_distance ≤ s.camera.max_zoom_distance →
        s.camera.min_zoom_distance ≤ (set_zoom_level zoom s).camera.distance ∧
          (set_zoom_level zoom s).camera.distance ≤ s.camera.max_zoom_distance) ∧
      (s.camera.min_zoom_distance < 0 → s.camera.max_zoom_distance < 0 →
        (set_zoom_level zoom s).camera.distance
          = s.camera.distance * s.camera.zoom_sensitivity ^ zoom) ∧
      (s.camera.min_zoom_distance < 0 → 0 ≤ s.camera.max_zoom_distance →
        (set_zoom_level zoom s).camera.distance
          = min (s.camera.distance * s.camera.zoom_sensitivity ^ zoom)
              s.camera.max_zoom_distance) ∧
      (0 ≤ s.camera.min_zoom_distance → s.camera.max_zoom_distance < 0 →
        (set_zoom_level zoom s).camera.distance
          = max (s.camera.distance * s.camera.zoom_sensitivity ^ zoom)
              s.camera.min_zoom_distance) := by
  rw [set_zoom_level_camera]
  dsimp only
  refine ⟨?_, ?_, ?_, ?_⟩
  · intro h1 h2 h3
    rw [if_pos h1, if_pos h2]
    exact ⟨Clamp.lower_le_clamp _ _ _ h3, Clamp.clamp_le_upper _ _ _⟩
  · intro h1 h2
    rw [if_neg (not_le.mpr h1), if_neg (not_le.mpr h2), Clamp.clamp_none_none]
  · intro h1 h2
    rw [if_neg (not_le.mpr h1), if_pos h2, Clamp.clamp_none_some]
  · intro h1 h2
    rw [if_pos h1, if_neg (not_le.mpr h2), Clamp.clamp_some_none]

/-- Witness for C2 at the camera spawned by src/main.rs with a zoom of one
line tick. -/
theorem c2_zoom_distance_bounds_witness :
    ((0 : ℝ) ≤ (OrbitCamera.new 0 0 12.5 Vec3.zero).min_zoom_distance ∧
        (0 : ℝ) ≤ (OrbitCamera.new 0 0 12.5 Vec3.zero).max_zoom_distance ∧
        (OrbitCamera.new 0 0 12.5 Vec3.zero).min_zoom_distance ≤
          (OrbitCamera.new 0 0 12.5 Vec3.zero).max_zoom_distance) ∧
      ((OrbitCamera.new 0 0 12.5 Vec3.zero).min_zoom_distance ≤
          (set_zoom_level 1 ⟨OrbitCamera.new 0 0 12.5 Vec3.zero, ⟨0, 0, 12.5⟩⟩).camera.distance ∧
        (set_zoom_level 1 ⟨OrbitCamera.new 0 0 12.5 Vec3.zero, ⟨0, 0, 12.5⟩⟩).camera.distance ≤
          (OrbitCamera.new 0 0 12.5 Vec3.zero).max_zoom_distance) :=
  ⟨⟨by norm_num [OrbitCamera.new], by norm_num [OrbitCamera.new],
      by norm_num [OrbitCamera.new]⟩,
    (c2_zoom_distance_bounds 1 ⟨OrbitCamera.new 0 0 12.5 Vec3.zero, ⟨0, 0, 12.5⟩⟩).1
      (by norm_num [OrbitCamera.new]) (by norm_num [OrbitCamera.new])
      (by norm_num [OrbitCamera.new])⟩

/-- C4: a zoom update accumulates the scroll magnitude (one per "line" unit,
`0.1` per "pixel" unit), multiplies the distance by
`zoom_sensitivity ^ magnitude`, clamps it against the non-negative bounds,
and re-projects the position as `normalize(position - center) * distance +
center`; in particular a scroll of 3 "lines" at `zoom_sensitivity = 0.8` and
distance `10` gives distance `10 * 0.8 ^ 3 = 5.12` before clamping (the
default camera's bounds being negative, no clamp applies). -/
theorem c4_zoom_update_formula :
    (∀ (events : List MouseWheel) (s : CamState),
        mouse_zoom_update events s = set_zoom_level (scroll_total events) s) ∧
      (∀ (e : MouseWheel) (rest : List MouseWheel),
        scroll_total (e :: rest)
          = e.y * (match e.unit with
              | MouseScrollUnit.Line => 1
              | MouseScrollUnit.Pixel => line_to_pixel_ratio) + scroll_total rest) ∧
      line_to_pixel_ratio = 0.1 ∧
      (∀ (zoom : ℝ) (s : CamState),
        (set_zoom_level zoom s).camera.distance
            = Clamp.clamp (s.camera.distance * s.camera.zoom_sensitivity ^ zoom)
                (if s.camera.min_zoom_distance ≥ 0 then some s.camera.min_zoom_distance
                  else none)
                (if s.camera.max_zoom_distance ≥ 0 then some s.camera.max_zoom_distance
                  else none) ∧
          (set_zoom_level zoom s).translation
            = (set_zoom_level zoom s).camera.distance •
                (s.translation - s.camera.center).normalize + s.camera.center) ∧
      scroll_total [⟨MouseScrollUnit.Line, 3⟩] = 3 ∧
      (10 : ℝ) * (0.8 : ℝ) ^ scroll_total [⟨MouseScrollUnit.Line, 3⟩] = 5.12 ∧
      (mouse_zoom_update [⟨MouseScrollUnit.Line, 3⟩]
          ⟨{ OrbitCamera.default with distance := 10 }, ⟨0, 0, 10⟩⟩).camera.distance
        = 5.12 := by
  have htotal : scroll_total [⟨MouseScrollUnit.Line, 3⟩] = 3 := by
    norm_num [scroll_total]
  have hraw : (10 : ℝ) * (0.8 : ℝ) ^ scroll_total [⟨MouseScrollUnit.Line, 3⟩] = 5.12 := by
    rw [htotal, show (3 : ℝ) = ((3 : ℕ) : ℝ) by norm_num, Real.rpow_natCast]
    norm_num
  refine ⟨fun events s => rfl, scroll_total_cons, rfl, fun zoom s => ⟨rfl, rfl⟩,
    htotal, hraw, ?_⟩
  show Clamp.clamp ((10 : ℝ) * (0.8 : ℝ) ^ scroll_total [⟨MouseScrollUnit.Line, 3⟩])
      (if (-1 : ℝ) ≥ 0 then some (-1 : ℝ) else none)
      (if (-1 : ℝ) ≥ 0 then some (-1 : ℝ) else none) = 5.12
  rw [if_neg (by norm_num), Clamp.clamp_none_none, hraw]

/-- A zero-delta mouse-motion frame leaves all camera fields unchanged,
provided that when the rotate branch runs the polar angle is already within
its bounds (otherwise the rotate branch clamps it). -/
theorem mouse_motion_update_zero_delta (dt : ℝ) (shift lmb rmb : Bool) (s : CamState)
    (hy1 : shift = false → lmb = true → s.camera.min_polar_angle ≤ s.camera.y)
    (hy2 : shift = false → lmb = true → s.camera.y ≤ s.camera.max_polar_angle) :
    (mouse_motion_update dt ⟨0, 0⟩ shift lmb rmb s).camera.x = s.camera.x ∧
      (mouse_motion_update dt ⟨0, 0⟩ shift lmb rmb s).camera.y = s.camera.y ∧
      (mouse_motion_update dt ⟨0, 0⟩ shift lmb rmb s).camera.center = s.camera.center ∧
      (mouse_motion_update dt ⟨0, 0⟩ shift lmb rmb s).camera.distance = s.camera.distance ∧
      (mouse_motion_update dt ⟨0, 0⟩ shift lmb rmb s).camera.min_zoom_distance
        = s.camera.min_zoom_distance ∧
      (mouse_motion_update dt ⟨0, 0⟩ shift lmb rmb s).camera.max_zoom_distance
        = s.camera.max_zoom_distance := by
  cases shift
  · cases lmb
    · cases rmb
      · exact ⟨rfl, rfl, rfl, rfl, rfl, rfl⟩
      · rw [mouse_motion_update_pan_rmb]
        refine ⟨rfl, rfl, ?_, rfl, rfl, rfl⟩
        show s.camera.center + ⟨0 * s.camera.pan_sensitivity * dt,
          0 * s.camera.pan_sensitivity * dt, 0⟩ = s.camera.center
        ext <;> simp
    · rw [mouse_motion_update_rotate]
      refine ⟨?_, ?_, rfl, rfl, rfl, rfl⟩
      · show s.camera.x - 0 * s.camera.rotate_sensitivity * dt = s.camera.x
        ring
      · show Clamp.clamp (s.camera.y - 0 * s.camera.rotate_sensitivity * dt)
          (some s.camera.min_polar_angle) (some s.camera.max_polar_angle) = s.camera.y
        rw [show s.camera.y - 0 * s.camera.rotate_sensitivity * dt = s.camera.y by ring]
        exact Clamp.clamp_eq_self _ _ _ (hy1 rfl rfl) (hy2 rfl rfl)
  · cases lmb
    · exact ⟨rfl, rfl, rfl, rfl, rfl, rfl⟩
    · rw [mouse_motion_update_pan_shift]
      refine ⟨rfl, rfl, ?_, rfl, rfl, rfl⟩
      show s.camera.center + ⟨0 * s.camera.pan_sensitivity * dt,
        0 * s.camera.pan_sensitivity * dt, 0⟩ = s.camera.center
      ext <;> simp

/-- Counterexample to C6 as stated: at the camera
`OrbitCamera::new(0, 0, 5, origin)` — whose stored distance `5` lies below its
`min_zoom_distance` of `8` — a frame with zero pointer delta and zero scroll
still changes the distance, because `mouse_zoom_system` applies the zoom clamp
unconditionally every frame. -/
theorem c6_zero_frame_counterexample :
    (frame 1 ⟨0, 0⟩ false false false [] false false
        ⟨OrbitCamera.new 0 0 5 Vec3.zero, ⟨0, 0, 5⟩⟩).camera.distance ≠
      (OrbitCamera.new 0 0 5 Vec3.zero).distance := by
  have h : (frame 1 ⟨0, 0⟩ false false false [] false false
        ⟨OrbitCamera.new 0 0 5 Vec3.zero, ⟨0, 0, 5⟩⟩).camera.distance
      = Clamp.clamp ((5 : ℝ) * (0.8 : ℝ) ^ (0 : ℝ))
          (if (8 : ℝ) ≥ 0 then some (8 : ℝ) else none)
          (if (120 : ℝ) ≥ 0 then some (120 : ℝ) else none) := rfl
  rw [h, Real.rpow_zero, if_pos (by norm_num), if_pos (by norm_num),
    Clamp.clamp_some_some]
  show min (max ((5 : ℝ) * 1) 8) 120 ≠ (OrbitCamera.new 0 0 5 Vec3.zero).distance
  show min (max ((5 : ℝ) * 1) 8) 120 ≠ 5
  norm_num

/-- C6 (amended): a frame with zero pointer delta, zero scroll and no zoom key
leaves the angles `x`, `y`, the center and the distance unchanged, provided
the stored distance already satisfies the active (non-negative) zoom bounds
and — when the rotate branch is active (primary button held, no modifier) —
the stored polar angle already lies within the polar bounds. -/
theorem c6_zero_frame_preserves_state (dt : ℝ) (shift lmb rmb : Bool) (s : CamState)
    (hmin : 0 ≤ s.camera.min_zoom_distance → s.camera.min_zoom_distance ≤ s.camera.distance)
    (hmax : 0 ≤ s.camera.max_zoom_distance → s.camera.distance ≤ s.camera.max_zoom_distance)
    (hy1 : shift = false → lmb = true → s.camera.min_polar_angle ≤ s.camera.y)
    (hy2 : shift = false → lmb = true → s.camera.y ≤ s.camera.max_polar_angle) :
    (frame dt ⟨0, 0⟩ shift lmb rmb [] false false s).camera.x = s.camera.x ∧
      (frame dt ⟨0, 0⟩ shift lmb rmb [] false false s).camera.y = s.camera.y ∧
      (frame dt ⟨0, 0⟩ shift lmb rmb [] false false s).camera.center = s.camera.center ∧
      (frame dt ⟨0, 0⟩ shift lmb rmb [] false false s).camera.distance
        = s.camera.distance := by
  obtain ⟨hx, hy, hc, hd, hmn, hmx⟩ :=
    mouse_motion_update_zero_delta dt shift lmb rmb s hy1 hy2
  have hid := set_zoom_level_zero_identity (mouse_motion_update dt ⟨0, 0⟩ shift lmb rmb s)
    (by rw [hmn, hd]; exact hmin) (by rw [hmx, hd]; exact hmax)
  have hframe : frame dt ⟨0, 0⟩ shift lmb rmb [] false false s
      = set_zoom_level 0 (mouse_motion_update dt ⟨0, 0⟩ shift lmb rmb s) := rfl
  rw [hframe]
  exact ⟨hid.1.trans hx, hid.2.1.trans hy, hid.2.2.1.trans hc, hid.2.2.2.trans hd⟩

/-- Witness for the amended C6: rotate mode held with zero delta at the
camera `OrbitCamera::new(0, 1, 12.5, origin)`. -/
theorem c6_zero_frame_preserves_state_witness :
    ((OrbitCamera.new 0 1 12.5 Vec3.zero).min_zoom_distance ≤
        (OrbitCamera.new 0 1 12.5 Vec3.zero).distance ∧
      (OrbitCamera.new 0 1 12.5 Vec3.zero).distance ≤
        (OrbitCamera.new 0 1 12.5 Vec3.zero).max_zoom_distance ∧
      (OrbitCamera.new 0 1 12.5 Vec3.zero).min_polar_angle ≤
        (OrbitCamera.new 0 1 12.5 Vec3.zero).y ∧
      (OrbitCamera.new 0 1 12.5 Vec3.zero).y ≤
        (OrbitCamera.new 0 1 12.5 Vec3.zero).max_polar_angle) ∧
      ((frame 1 ⟨0, 0⟩ false true false [] false false
            ⟨OrbitCamera.new 0 1 12.5 Vec3.zero, ⟨0, 0, 12.5⟩⟩).camera.x
          = (OrbitCamera.new 0 1 12.5 Vec3.zero).x ∧
        (frame 1 ⟨0, 0⟩ false true false [] false false
            ⟨OrbitCamera.new 0 1 12.5 Vec3.zero, ⟨0, 0, 12.5⟩⟩).camera.y
          = (OrbitCamera.new 0 1 12.5 Vec3.zero).y ∧
        (frame 1 ⟨0, 0⟩ false true false [] false false
            ⟨OrbitCamera.new 0 1 12.5 Vec3.zero, ⟨0, 0, 12.5⟩⟩).camera.center
          = (OrbitCamera.new 0 1 12.5 Vec3.zero).center ∧
        (frame 1 ⟨0, 0⟩ false true false [] false false
            ⟨OrbitCamera.new 0 1 12.5 Vec3.zero, ⟨0, 0, 12.5⟩⟩).camera.distance
          = (OrbitCamera.new 0 1 12.5 Vec3.zero).distance) :=
  ⟨⟨by norm_num [OrbitCamera.new], by norm_num [OrbitCamera.new],
      by norm_num [OrbitCamera.new], by norm_num [OrbitCamera.new]⟩,
    c6_zero_frame_preserves_state 1 false true false
      ⟨OrbitCamera.new 0 1 12.5 Vec3.zero, ⟨0, 0, 12.5⟩⟩
      (fun _ => by norm_num [OrbitCamera.new]) (fun _ => by norm_num [OrbitCamera.new])
      (fun _ _ => by norm_num [OrbitCamera.new]) (fun _ _ => by norm_num [OrbitCamera.new])⟩

/-- Witness for C7: a drag of `(5, 0.5)` and back at the camera
`OrbitCamera::new(0, 1, 12.5, origin)`. -/
theorem c7_rotate_round_trip_witness :
    ((OrbitCamera.new 0 1 12.5 Vec3.zero).min_polar_angle ≤
        (OrbitCamera.new 0 1 12.5 Vec3.zero).y
          - (0.5 : ℝ) * (OrbitCamera.new 0 1 12.5 Vec3.zero).rotate_sensitivity * 1 ∧
      (OrbitCamera.new 0 1 12.5 Vec3.zero).y
          - (0.5 : ℝ) * (OrbitCamera.new 0 1 12.5 Vec3.zero).rotate_sensitivity * 1 ≤
        (OrbitCamera.new 0 1 12.5 Vec3.zero).max_polar_angle) ∧
      ((mouse_motion_update 1 ⟨-5, -0.5⟩ false true false
          (mouse_motion_update 1 ⟨5, 0.5⟩ false true false
            ⟨OrbitCamera.new 0 1 12.5 Vec3.zero, ⟨0, 0, 12.5⟩⟩)).camera.x
          = (OrbitCamera.new 0 1 12.5 Vec3.zero).x ∧
        (mouse_motion_update 1 ⟨-5, -0.5⟩ false true false
          (mouse_motion_update 1 ⟨5, 0.5⟩ false true false
            ⟨OrbitCamera.new 0 1 12.5 Vec3.zero, ⟨0, 0, 12.5⟩⟩)).camera.y
          = (OrbitCamera.new 0 1 12.5 Vec3.zero).y) :=
  ⟨⟨by norm_num [OrbitCamera.new], by norm_num [OrbitCamera.new]⟩,
    c7_rotate_round_trip 1 ⟨5, 0.5⟩ false false
      ⟨OrbitCamera.new 0 1 12.5 Vec3.zero, ⟨0, 0, 12.5⟩⟩
      (by norm_num [OrbitCamera.new]) (by norm_num [OrbitCamera.new])
      (by norm_num [OrbitCamera.new]) (by norm_num [OrbitCamera.new])⟩

/-- Counterexample to C8 as stated: with a negative stored distance (the
default camera's bounds are negative, so no clamp fires and the claim's
side-conditions hold, `zoom_sensitivity = 0.8 < 1`), the `-0.2` keyboard step
strictly DEcreases the distance instead of increasing it. -/
theorem c8_keyboard_zoom_counterexample :
    ¬ ({ OrbitCamera.default with distance := -1 } : OrbitCamera).distance <
        (keyboard_controls_update false true
          ⟨{ OrbitCamera.default with distance := -1 }, ⟨0, 0, 1⟩⟩).camera.distance := by
  have h : (keyboard_controls_update false true
        ⟨{ OrbitCamera.default with distance := -1 }, ⟨0, 0, 1⟩⟩).camera.distance
      = Clamp.clamp ((-1 : ℝ) * (0.8 : ℝ) ^ (-0.2 : ℝ))
          (if (-1 : ℝ) ≥ 0 then some (-1 : ℝ) else none)
          (if (-1 : ℝ) ≥ 0 then some (-1 : ℝ) else none) := rfl
  rw [h, if_neg (by norm_num), Clamp.clamp_none_none]
  have hr : 1 < (0.8 : ℝ) ^ (-0.2 : ℝ) := by
    rw [Real.one_lt_rpow_iff_of_pos (by norm_num)]
    right
    constructor
    · norm_num
    · norm_num
  show ¬ (-1 : ℝ) < (-1 : ℝ) * (0.8 : ℝ) ^ (-0.2 : ℝ)
  push_neg
  nlinarith [hr]

/-- C8 (amended): the "up" key applies a zoom magnitude of exactly `+0.2`
once per frame, the "down" key `-0.2`; and with `zoom_sensitivity` strictly
between 0 and 1, a POSITIVE current distance and no clamp triggered, the
`-0.2` step strictly increases the distance. -/
theorem c8_keyboard_zoom_step :
    (∀ (down : Bool) (s : CamState),
        keyboard_controls_update true down s = set_zoom_level 0.2 s) ∧
      (∀ s : CamState,
        keyboard_controls_update false true s = set_zoom_level (-0.2) s) ∧
      (∀ s : CamState, keyboard_controls_update false false s = s) ∧
      ∀ s : CamState,
        0 < s.camera.zoom_sensitivity → s.camera.zoom_sensitivity < 1 →
        0 < s.camera.distance →
        (0 ≤ s.camera.min_zoom_distance →
          s.camera.min_zoom_distance ≤
            s.camera.distance * s.camera.zoom_sensitivity ^ (-0.2 : ℝ)) →
        (0 ≤ s.camera.max_zoom_distance →
          s.camera.distance * s.camera.zoom_sensitivity ^ (-0.2 : ℝ) ≤
            s.camera.max_zoom_distance) →
        s.camera.distance < (keyboard_controls_update false true s).camera.distance := by
  refine ⟨fun down s => rfl, fun s => rfl, fun s => rfl, ?_⟩
  intro s hz0 hz1 hd hmn hmx
  have hkb : (keyboard_controls_update false true s).camera.distance
      = Clamp.clamp (s.camera.distance * s.camera.zoom_sensitivity ^ (-0.2 : ℝ))
          (if s.camera.min_zoom_distance ≥ 0 then some s.camera.min_zoom_distance else none)
          (if s.camera.max_zoom_distance ≥ 0 then some s.camera.max_zoom_distance
            else none) := rfl
  rw [hkb, clamp_guard_eq_self _ _ _ hmn hmx]
  have hr : 1 < s.camera.zoom_sensitivity ^ (-0.2 : ℝ) := by
    rw [Real.one_lt_rpow_iff_of_pos hz0]
    right
    exact ⟨hz1, by norm_num⟩
  nlinarith [hr, hd]

/-- Witness for the amended C8: the default camera at distance 10 (bounds
negative, so the clamp hypotheses are vacuous). -/
theorem c8_keyboard_zoom_step_witness :
    (0 < ({ OrbitCamera.default with distance := 10 } : OrbitCamera).zoom_sensitivity ∧
        ({ OrbitCamera.default with distance := 10 } : OrbitCamera).zoom_sensitivity < 1 ∧
        0 < ({ OrbitCamera.default with distance := 10 } : OrbitCamera).distance) ∧
      ({ OrbitCamera.default with distance := 10 } : OrbitCamera).distance <
        (keyboard_controls_update false true
          ⟨{ OrbitCamera.default with distance := 10 }, ⟨0, 0, 10⟩⟩).camera.distance :=
  ⟨⟨by norm_num [OrbitCamera.default], by norm_num [OrbitCamera.default],
      by norm_num [OrbitCamera.default]⟩,
    c8_keyboard_zoom_step.2.2.2
      ⟨{ OrbitCamera.default with distance := 10 }, ⟨0, 0, 10⟩⟩
      (by norm_num [OrbitCamera.default]) (by norm_num [OrbitCamera.default])
      (by norm_num [OrbitCamera.default])
      (fun hc => absurd hc (by norm_num [OrbitCamera.default]))
      (fun hc => absurd hc (by norm_num [OrbitCamera.default]))⟩

/-- Every branch of the mouse-motion system preserves the invariant. -/
theorem goodState_motion (dt : ℝ) (delta : Vec2) (shift lmb rmb : Bool) (s : CamState)
    (h : goodState s) : goodState (mouse_motion_update dt delta shift lmb rmb s) := by
  obtain ⟨h1, h2, h3, h4⟩ := h
  have pan_diff : ∀ v : Vec3,
      (s.translation + v) - (s.camera.center + v) = s.translation - s.camera.center := by
    intro v; ext <;> simp
  cases shift
  · cases lmb
    · cases rmb
      · exact ⟨h1, h2, h3, h4⟩
      · rw [mouse_motion_update_pan_rmb]
        refine ⟨h1, h2, h3, ?_⟩
        show 0 < ((s.translation + _) - (s.camera.center + _)).normSq
        rw [pan_diff]
        exact h4
    · rw [mouse_motion_update_rotate]
      refine ⟨h1, h2, h3, ?_⟩
      show 0 < (s.camera.distance • _ + s.camera.center - s.camera.center).normSq
      rw [Vec3.add_sub_cancel_right, rotate_offset_normSq]
      exact pow_pos h3 2
  · cases lmb
    · exact ⟨h1, h2, h3, h4⟩
    · rw [mouse_motion_update_pan_shift]
      refine ⟨h1, h2, h3, ?_⟩
      show 0 < ((s.translation + _) - (s.camera.center + _)).normSq
      rw [pan_diff]
      exact h4

/-- Function `set_zoom_level` preserves the invariant: the clamp forces the new
distance to at least the lower bound 8, and the re-projection puts the camera
at exactly that distance from the center. -/
theorem set_zoom_level_good (zoom : ℝ) (s : CamState) (h : goodState s) :
    goodState (set_zoom_level zoom s) := by
  obtain ⟨h1, h2, h3, h4⟩ := h
  have hd2 : (8 : ℝ) ≤ (set_zoom_level zoom s).camera.distance := by
    rw [set_zoom_level_camera]
    dsimp only
    rw [h1, h2, if_pos (by norm_num : (8 : ℝ) ≥ 0), if_pos (by norm_num : (120 : ℝ) ≥ 0)]
    exact Clamp.lower_le_clamp _ _ _ (by norm_num)
  have hdpos : (0 : ℝ) < (set_zoom_level zoom s).camera.distance := by linarith
  refine ⟨h1, h2, hdpos, ?_⟩
  have hdiff : (set_zoom_level zoom s).translation - (set_zoom_level zoom s).camera.center
      = (set_zoom_level zoom s).camera.distance •
          (s.translation - s.camera.center).normalize := by
    rw [set_zoom_level_translation]
    exact Vec3.add_sub_cancel_right _ _
  rw [hdiff, Vec3.normSq_smul, Vec3.normSq_normalize _ (ne_of_gt h4), mul_one]
  exact pow_pos hdpos 2

/-- On an invariant state the checked zoom update is defined and preserves
the invariant. -/
theorem set_zoom_level_checked_good (zoom : ℝ) (s : CamState) (h : goodState s) :
    set_zoom_level_checked zoom s = some (set_zoom_level zoom s) ∧
      goodState (set_zoom_level zoom s) := by
  refine ⟨?_, set_zoom_level_good zoom s h⟩
  have hlen : ¬ (s.translation - s.camera.center).length = 0 := fun hl =>
    ne_of_gt h.2.2.2 ((Vec3.length_eq_zero_iff _).mp hl)
  simp only [set_zoom_level_checked]
  rw [if_neg hlen]

/-- Every system invocation is defined on an invariant state and preserves
the invariant. -/
theorem step_good (s : CamState) (i : FrameInput) (h : goodState s) :
    ∃ t, step s i = some t ∧ goodState t := by
  cases i with
  | motion dt delta shift lmb rmb =>
    exact ⟨_, rfl, goodState_motion dt delta shift lmb rmb s h⟩
  | wheel events =>
    obtain ⟨he, hg⟩ := set_zoom_level_checked_good (scroll_total events) s h
    exact ⟨_, he, hg⟩
  | key up down =>
    cases up
    · cases down
      · exact ⟨s, rfl, h⟩
      · obtain ⟨he, hg⟩ := set_zoom_level_checked_good (-0.2) s h
        exact ⟨_, he, hg⟩
    · obtain ⟨he, hg⟩ := set_zoom_level_checked_good 0.2 s h
      exact ⟨_, he, hg⟩

/-- Runs from an invariant state are defined and end in an invariant state. -/
theorem run_good (l : List FrameInput) :
    ∀ s : CamState, goodState s → ∃ t, run s l = some t ∧ goodState t := by
  induction l with
  | nil => intro s h; exact ⟨s, rfl, h⟩
  | cons i rest ih =>
    intro s h
    obtain ⟨t, ht, hgt⟩ := step_good s i h
    obtain ⟨u, hu, hgu⟩ := ih t hgt
    refine ⟨u, ?_, hgu⟩
    show List.foldl _ ((some s).bind fun v => step v i) rest = some u
    rw [Option.some_bind, ht]
    exact hu

/-- The camera spawned by src/main.rs satisfies the invariant. -/
theorem initState_good : goodState initState := by
  refine ⟨rfl, rfl, by norm_num [initState, OrbitCamera.new], ?_⟩
  show (0 : ℝ) < ((⟨0, 0, 12.5⟩ : Vec3) - Vec3.zero).normSq
  norm_num [Vec3.normSq, Vec3.zero]

/-- C9: the per-frame camera math is total on every state reachable from the
camera spawned in src/main.rs: the constructor fixes ordered, non-negative
clamp bounds by construction, and every sequence of system invocations
(rotate, pan, wheel zoom — including the `normalize` of the re-projection and
the `powf` in the distance formula — and keyboard zoom) succeeds. -/
theorem c9_camera_math_total :
    (∀ (x y dist : ℝ) (center : Vec3),
        (OrbitCamera.new x y dist center).min_polar_angle ≤
            (OrbitCamera.new x y dist center).max_polar_angle ∧
          0 ≤ (OrbitCamera.new x y dist center).min_zoom_distance ∧
          (OrbitCamera.new x y dist center).min_zoom_distance ≤
            (OrbitCamera.new x y dist center).max_zoom_distance) ∧
      ∀ l : List FrameInput, (run initState l).isSome = true := by
  constructor
  · intro x y dist center
    exact ⟨by norm_num [OrbitCamera.new], by norm_num [OrbitCamera.new],
      by norm_num [OrbitCamera.new]⟩
  · intro l
    obtain ⟨t, ht, _⟩ := run_good l initState initState_good
    rw [ht]
    rfl

/-- C10: parsing the command line yields `box_count = 6` when no argument
follows the program name, yields the parsed integer when the first argument
parses as an `i32`, and otherwise terminates the process with the message
"Please specify the number of boxes as an integer." — with no other outcome
(no retry, no recovery). -/
theorem c10_parse_command_line_options :
    (∀ args : List String, args.length ≤ 1 →
        parse_command_line_options args = Except.ok ⟨6⟩) ∧
      (∀ (prog first : String) (rest : List String) (n : Int),
        parse_i32 first = some n →
        parse_command_line_options (prog :: first :: rest) = Except.ok ⟨n⟩) ∧
      (∀ (prog first : String) (rest : List String),
        parse_i32 first = none →
        parse_command_line_options (prog :: first :: rest)
          = Except.error "Please specify the number of boxes as an integer.") := by
  refine ⟨?_, ?_, ?_⟩
  · intro args hlen
    match args with
    | [] => rfl
    | [a] => rfl
    | a :: b :: rest => simp at hlen
  · intro prog first rest n hparse
    simp only [parse_command_line_options, hparse]
  · intro prog first rest hparse
    simp only [parse_command_line_options, hparse]

/-- Witness for C10: no argument, the argument `"7"`, and the non-numeric
argument `"x"`. -/
theorem c10_parse_command_line_options_witness :
    parse_i32 "7" = some 7 ∧ parse_i32 "x" = none ∧
      parse_command_line_options ["demo"] = Except.ok ⟨6⟩ ∧
      parse_command_line_options ["demo", "7"] = Except.ok ⟨7⟩ ∧
      parse_command_line_options ["demo", "x"]
        = Except.error "Please specify the number of boxes as an integer." :=
  ⟨by decide, by decide,
    c10_parse_command_line_options.1 ["demo"] (by decide),
    c10_parse_command_line_options.2.1 "demo" "7" [] 7 (by decide),
    c10_parse_command_line_options.2.2 "demo" "x" [] (by decide)⟩

end BevyOrbit
